import Mathlib

/-!
Shallow embedding of `src/models/cash_transfer.py` (Odoo module
`transferencias_internas_uo`): the `cash.transfer` model, its journal
resolution helpers and its `action_validate` posting logic.

Records and recordsets of the host ORM are modelled explicitly:
Many2one references that can be empty are `Option`, record equality is
id equality, database `search` results are lists in database return
order, and `search(..., limit=1, order='id asc')` picks the match with
the least id.  Monetary amounts are modelled as `Int` (the claims only
compare against zero and move amounts around).  `UserError` raised by
validation is the `Except` error component; the Python `ValueError`
that `int()` can raise inside `_get_central_cash_journal` is a distinct
error constructor.
-/

namespace CashTransferSpec

/-- An `account.journal` record, restricted to the fields the module reads. -/
structure Journal where
  id : Nat
  company_id : Nat
  type : String
  operating_unit_id : Option Nat
  default_account_id : Option Nat
  payment_debit_account_id : Option Nat
  payment_credit_account_id : Option Nat
  name : String
deriving DecidableEq, Repr

/-- An `operating.unit` record, restricted to the fields the module reads. -/
structure OperatingUnit where
  id : Nat
  company_id : Nat
  name : String
  code : String
deriving DecidableEq, Repr

/-- The read-only part of the Odoo environment the module consults:
the journal table, the operating-unit table, the
`cash_transfer.central_journal_id` configuration parameter
(`none` = not set), the acting user's `default_operating_unit_id`
(`none` = unset or attribute missing), and each company's currency. -/
structure Env where
  journals : List Journal
  ous : List OperatingUnit
  central_journal_param : Option String
  user_default_ou : Option Nat
  companyCurrency : Nat → Nat

/-- A `cash.transfer` record.  `company_id` is `Option` because onchange
handlers run on records whose required fields may still be unset;
journal references embed the journal record (record fields in the ORM
are the referenced records themselves). -/
structure CashTransfer where
  id : Nat
  date : Nat
  company_id : Option Nat
  journal_id_from : Option Journal
  journal_id_to : Option Journal
  amount : Int
  currency_id : Nat
  state : String
deriving DecidableEq, Repr

/-- One line of the `line_ids` one2many in the created `account.move`. -/
structure MoveLine where
  name : String
  account_id : Nat
  debit : Int
  credit : Int
  currency_id : Option Nat
  company_id : Option Nat
deriving DecidableEq, Repr

/-- The `account.move` created by `action_validate`; `posted` records
whether `action_post` has been called on it. -/
structure Move where
  date : Nat
  journal_id : Nat
  ref : String
  line_ids : List MoveLine
  company_id : Option Nat
  posted : Bool
deriving DecidableEq, Repr

/-- Model of `_get_user_default_ou`: reads `default_operating_unit_id` from the
acting user via `getattr` with default `False`. -/
def _get_user_default_ou (env : Env) : Option Nat :=
  env.user_default_ou

/-- The search domain of `_find_cash_journal_by_ou`: cash type, the given
company, and — only when an operating unit is supplied — that unit. -/
def cashJournalFilter (company : Option Nat) (ou : Option Nat) (j : Journal) : Bool :=
  j.type == "cash" && (some j.company_id == company) &&
    (match ou with
     | none => true
     | some o => j.operating_unit_id == some o)

/-- Helper for `search(..., limit=1, order='id asc')`: the element with the
least `id`, earliest occurrence winning ties. -/
def minByIdAux : Journal → List Journal → Journal
  | b, [] => b
  | b, j :: rest => minByIdAux (if j.id < b.id then j else b) rest

/-- Model of `_find_cash_journal_by_ou`: searches cash journals of the company,
adding the operating-unit condition only when `ou` is set, ordered
`id asc`, limit 1. -/
def _find_cash_journal_by_ou (env : Env) (company : Option Nat) (ou : Option Nat) :
    Option Journal :=
  match env.journals.filter (cashJournalFilter company ou) with
  | [] => none
  | j :: rest => some (minByIdAux j rest)

/-- Digit-list check used by the model of Python `int()`. -/
def decDigits (cs : List Char) : Bool :=
  !cs.isEmpty && cs.all Char.isDigit

/-- Numeric value of a digit list. -/
def digitsToNat (cs : List Char) : Nat :=
  cs.foldl (fun a c => a * 10 + (c.toNat - 48)) 0

/-- Model of Python `int(s)` on a string: an optional sign followed by at
least one decimal digit parses, anything else raises `ValueError`. -/
def pyIntParse? (s : String) : Option Int :=
  match s.toList with
  | '-' :: rest => if decDigits rest then some (-(digitsToNat rest : Int)) else none
  | '+' :: rest => if decDigits rest then some ((digitsToNat rest : Int)) else none
  | cs => if decDigits cs then some ((digitsToNat cs : Int)) else none

/-- Model of `int(ICP.get_param('cash_transfer.central_journal_id', default='0') or 0)`:
a missing parameter yields the default string `'0'`, a falsy (empty)
value is replaced by the integer `0` before conversion, and any other
string goes through `int()`, which can raise. -/
def parseCentralId (p : Option String) : Except Unit Int :=
  let s := p.getD "0"
  if s = "" then .ok 0
  else (pyIntParse? s).elim (.error ()) .ok

/-- Model of `Journal.browse(central_id).exists()`: a journal with that id. -/
def browseIdFilter (central_id : Int) (j : Journal) : Bool :=
  ((j.id : Int) == central_id)

/-- Step 1 of `_get_central_cash_journal`: the journal named by the
configuration parameter, used only when the id is truthy, the journal
exists, belongs to the company and has type `cash`. -/
def centralParamJournal (env : Env) (company : Option Nat) (central_id : Int) :
    Option Journal :=
  if central_id ≠ 0 then
    (env.journals.find? (browseIdFilter central_id)).bind fun j =>
      if some j.company_id == company && j.type == "cash" then some j else none
  else none

/-- Whether the first character list starts the second. -/
def charPrefixOf : List Char → List Char → Bool
  | [], _ => true
  | _ :: _, [] => false
  | c :: cs, d :: ds => c == d && charPrefixOf cs ds

/-- Whether the first character list occurs inside the second. -/
def charSub : List Char → List Char → Bool
  | needle, [] => needle.isEmpty
  | needle, d :: ds => charPrefixOf needle (d :: ds) || charSub needle ds

/-- ASCII lower-casing of one character (the letters of "Central" are
ASCII, which is all the case-insensitive match needs). -/
def lowerChar (c : Char) : Char :=
  if 'A' ≤ c ∧ c ≤ 'Z' then Char.ofNat (c.toNat + 32) else c

/-- The SQL `ilike 'Central'` operand: the name contains "central"
case-insensitively. -/
def nameIlikeCentral (name : String) : Bool :=
  charSub "central".toList (name.toList.map lowerChar)

/-- The domain of the fallback operating-unit search in
`_get_central_cash_journal`: same company, and name `ilike 'Central'`
(case-insensitive containment) or code exactly `'CENTRAL'`. -/
def centralOuFilter (company : Option Nat) (ou : OperatingUnit) : Bool :=
  (some ou.company_id == company) &&
    (nameIlikeCentral ou.name || ou.code == "CENTRAL")

/-- The domain of the journal search on the fallback path: cash type,
the company, and the central operating unit found. -/
def centralOuJournalFilter (company : Option Nat) (ouid : Nat) (j : Journal) : Bool :=
  j.type == "cash" && (some j.company_id == company) &&
    j.operating_unit_id == some ouid

/-- Step 2 of `_get_central_cash_journal`: find an operating unit named or
coded "Central" for the company, then the cash journal tagged with it. -/
def centralFallback (env : Env) (company : Option Nat) : Option Journal :=
  (env.ous.find? (centralOuFilter company)).bind fun ou =>
    env.journals.find? (centralOuJournalFilter company ou.id)

/-- Model of `_get_central_cash_journal`: configuration parameter first (when it
resolves to an existing cash journal of the company), operating-unit
fallback second, empty recordset (`none`) when neither succeeds; the
`int()` conversion of the parameter can raise, which propagates. -/
def _get_central_cash_journal (env : Env) (company : Option Nat) :
    Except Unit (Option Journal) :=
  (parseCentralId env.central_journal_param).map fun cid =>
    (centralParamJournal env company cid).orElse fun _ =>
      centralFallback env company

/-- Model of `_main_account`: first truthy of default account, payment debit
account, payment credit account; `False` (`none`) on an empty journal. -/
def _main_account : Option Journal → Option Nat
  | none => none
  | some j =>
      (j.default_account_id.orElse fun _ =>
        (j.payment_debit_account_id.orElse fun _ => j.payment_credit_account_id))

/-- Model of `_onchange_from_enforce_ou`: when the record has a company, the user
has an operating unit, and the selected source journal's unit differs
from the user's, replace the selection with the cash journal of the
user's unit if one exists. -/
def _onchange_from_enforce_ou (env : Env) (rec : CashTransfer) : CashTransfer :=
  match _get_user_default_ou env with
  | none => rec
  | some uou =>
      if rec.company_id.isSome then
        match rec.journal_id_from with
        | some jf =>
            if jf.operating_unit_id ≠ some uou then
              match _find_cash_journal_by_ou env rec.company_id (some uou) with
              | some j => { rec with journal_id_from := some j }
              | none => rec
            else rec
        | none => rec
      else rec

/-- The errors `action_validate` can raise: the five `UserError`s, in
source order, and the `ValueError` that `int()` can raise inside
`_get_central_cash_journal`. -/
inductive VError where
  | invalidAmount
  | missingJournal
  | sameJournal
  | destinationMustBeCentral
  | missingJournalAccount
  | valueError
deriving DecidableEq, Repr

/-- The `if transfer_currency != company_currency` / `else` line
construction of `action_validate`, kept with both branches as in the
source.  `company_currency` is `rec.company_id.currency_id`, empty when
the record has no company; `.id` of an empty recordset is falsy. -/
def buildLines (env : Env) (rec : CashTransfer) (jf jt : Journal)
    (acc_from acc_to : Nat) : MoveLine × MoveLine :=
  let company_currency : Option Nat := rec.company_id.map env.companyCurrency
  let transfer_currency : Nat := rec.currency_id
  if some transfer_currency ≠ company_currency then
    ({ name := "Entrada a " ++ jt.name, account_id := acc_to,
       debit := rec.amount, credit := 0,
       currency_id := some transfer_currency, company_id := rec.company_id },
     { name := "Salida de " ++ jf.name, account_id := acc_from,
       debit := 0, credit := rec.amount,
       currency_id := some transfer_currency, company_id := rec.company_id })
  else
    ({ name := "Entrada a " ++ jt.name, account_id := acc_to,
       debit := rec.amount, credit := 0,
       currency_id := company_currency, company_id := rec.company_id },
     { name := "Salida de " ++ jf.name, account_id := acc_from,
       debit := 0, credit := rec.amount,
       currency_id := company_currency, company_id := rec.company_id })

/-- Modelled from the spec: the collapsed line construction the spec
says the two branches amount to — both lines always tagged with the
transfer's own currency.  Used only to compare against `buildLines`. -/
def buildLinesCollapsed (rec : CashTransfer) (jf jt : Journal)
    (acc_from acc_to : Nat) : MoveLine × MoveLine :=
  ({ name := "Entrada a " ++ jt.name, account_id := acc_to,
     debit := rec.amount, credit := 0,
     currency_id := some rec.currency_id, company_id := rec.company_id },
   { name := "Salida de " ++ jf.name, account_id := acc_from,
     debit := 0, credit := rec.amount,
     currency_id := some rec.currency_id, company_id := rec.company_id })

/-- Model of `move.action_post()`: marks the move as posted. -/
def action_post (m : Move) : Move :=
  { m with posted := true }

/-- The tail of the loop body of `action_validate`, from the main-account
check on: resolve both main accounts, build the two lines, create the
move, post it, flip the record's state. -/
def validatePost (env : Env) (rec : CashTransfer) (jf jt : Journal) :
    Except VError (Move × CashTransfer) :=
  match _main_account (some jf), _main_account (some jt) with
  | some acc_from, some acc_to =>
      let lines := buildLines env rec jf jt acc_from acc_to
      let move : Move :=
        { date := rec.date, journal_id := jt.id,
          ref := "Transferencia de efectivo #" ++ toString rec.id,
          line_ids := [lines.1, lines.2],
          company_id := rec.company_id, posted := false }
      .ok (action_post move, { rec with state := "validated" })
  | _, _ => .error .missingJournalAccount

/-- One iteration of the `for rec in self` loop of `action_validate`:
the five guard checks in source order, then `validatePost`. -/
def validateOne (env : Env) (rec : CashTransfer) :
    Except VError (Move × CashTransfer) :=
  if rec.amount ≤ 0 then .error .invalidAmount
  else
    match rec.journal_id_from, rec.journal_id_to with
    | none, _ => .error .missingJournal
    | some _, none => .error .missingJournal
    | some jf, some jt =>
        if jf.id = jt.id then .error .sameJournal
        else
          match _get_central_cash_journal env rec.company_id with
          | .error _ => .error .valueError
          | .ok (some c) =>
              if jt.id ≠ c.id then .error .destinationMustBeCentral
              else validatePost env rec jf jt
          | .ok none => validatePost env rec jf jt

/-- The `for rec in self` loop: records processed left to right, each
success appending its posted move and validated record; the first
failure aborts the loop with the remaining records untouched. -/
def validateLoop (env : Env) :
    List CashTransfer → List Move → List CashTransfer →
    List Move × List CashTransfer × Option VError
  | [], moves, done => (moves, done, none)
  | r :: rest, moves, done =>
      match validateOne env r with
      | .ok (m, r') => validateLoop env rest (moves ++ [m]) (done ++ [r'])
      | .error e => (moves, done ++ r :: rest, some e)

/-- Model of `action_validate` on a recordset: moves created and posted so far,
the records in their final states, and the error that aborted the loop,
if any. -/
def action_validate (env : Env) (recs : List CashTransfer) :
    List Move × List CashTransfer × Option VError :=
  validateLoop env recs [] []

/-! Concrete fixtures used by the witness theorems: a company (id 1)
with three cash journals, an operating unit named "Sucursal Central"
with code `CENTRAL` tagging journal 2, and a user whose default
operating unit 10 tags journal 1. -/

/-- Fixture: the cash journal of operating unit 10. -/
def wJ1 : Journal :=
  ⟨1, 1, "cash", some 10, some 101, none, none, "Caja U1"⟩

/-- Fixture: the central cash journal, tagged with operating unit 20. -/
def wJ2 : Journal :=
  ⟨2, 1, "cash", some 20, some 102, none, none, "Caja Central"⟩

/-- Fixture: a third cash journal with no operating unit. -/
def wJ3 : Journal :=
  ⟨3, 1, "cash", none, some 103, none, none, "Caja Tres"⟩

/-- Fixture: a cash journal whose three candidate accounts are all unset. -/
def wJ4 : Journal :=
  ⟨4, 1, "cash", none, none, none, none, "Caja Sin Cuenta"⟩

/-- Fixture: the central operating unit. -/
def wOu : OperatingUnit :=
  ⟨20, 1, "Sucursal Central", "CENTRAL"⟩

/-- Fixture environment: no configuration parameter, user in unit 10. -/
def wEnv : Env :=
  ⟨[wJ1, wJ2, wJ3, wJ4], [wOu], none, some 10, fun _ => 50⟩

/-- Fixture environment whose configuration parameter names journal 3. -/
def wEnvP3 : Env :=
  { wEnv with central_journal_param := some "3" }

/-- Fixture environment whose configuration parameter is not numeric. -/
def wEnvBadParam : Env :=
  { wEnv with central_journal_param := some "abc" }

/-- Fixture transfer record ready to validate. -/
def wRec : CashTransfer :=
  ⟨5, 100, some 1, some wJ1, some wJ2, 100, 50, "draft"⟩

/-- The record `wRec` after a successful validation. -/
def wRecValidated : CashTransfer :=
  { wRec with state := "validated" }

/-- The posted move a successful validation of `wRec` produces. -/
def wMove : Move :=
  { date := 100, journal_id := 2, ref := "Transferencia de efectivo #5",
    line_ids :=
      [{ name := "Entrada a Caja Central", account_id := 102, debit := 100,
         credit := 0, currency_id := some 50, company_id := some 1 },
       { name := "Salida de Caja U1", account_id := 101, debit := 0,
         credit := 100, currency_id := some 50, company_id := some 1 }],
    company_id := some 1, posted := true }

lemma exceptMap_ok {ε α β : Type} (f : α → β) (a : α) :
    (Except.ok a : Except ε α).map f = .ok (f a) := rfl

lemma optOrElse_some {α : Type} (a : α) (f : Unit → Option α) :
    (some a).orElse f = some a := rfl

lemma optOrElse_none {α : Type} (f : Unit → Option α) :
    (none : Option α).orElse f = f () := rfl

lemma optElim_some {α β : Type} (a : α) (b : β) (f : α → β) :
    (some a).elim b f = f a := rfl

lemma minByIdAux_mem (l : List Journal) :
    ∀ b, minByIdAux b l = b ∨ minByIdAux b l ∈ l := by
  induction l with
  | nil => intro b; exact Or.inl rfl
  | cons j rest ih =>
      intro b
      by_cases hlt : j.id < b.id
      · simp only [minByIdAux, if_pos hlt]
        rcases ih j with h | h
        · exact Or.inr (by rw [h]; exact List.mem_cons_self _ _)
        · exact Or.inr (List.mem_cons_of_mem _ h)
      · simp only [minByIdAux, if_neg hlt]
        rcases ih b with h | h
        · exact Or.inl h
        · exact Or.inr (List.mem_cons_of_mem _ h)

lemma minByIdAux_le (l : List Journal) :
    ∀ b, (minByIdAux b l).id ≤ b.id ∧ ∀ j ∈ l, (minByIdAux b l).id ≤ j.id := by
  induction l with
  | nil => intro b; exact ⟨Nat.le_refl _, by simp⟩
  | cons j rest ih =>
      intro b
      by_cases hlt : j.id < b.id
      · obtain ⟨h1, h2⟩ := ih j
        simp only [minByIdAux, if_pos hlt]
        refine ⟨le_trans h1 (Nat.le_of_lt hlt), ?_⟩
        intro x hx
        rcases List.mem_cons.mp hx with rfl | hx'
        · exact h1
        · exact h2 x hx'
      · obtain ⟨h1, h2⟩ := ih b
        simp only [minByIdAux, if_neg hlt]
        refine ⟨h1, ?_⟩
        intro x hx
        rcases List.mem_cons.mp hx with rfl | hx'
        · exact le_trans h1 (Nat.le_of_not_lt hlt)
        · exact h2 x hx'

/-- C6: `_find_cash_journal_by_ou` searches journals with type cash and
the given company, adds the operating-unit condition only when a unit
is supplied (the two `cashJournalFilter` equations), and returns the
match with the least identifier, or `none` exactly when no journal
matches. -/
theorem find_cash_journal_by_ou_spec (env : Env) (company ou : Option Nat) :
    (∀ j : Journal, cashJournalFilter company none j =
        (j.type == "cash" && (some j.company_id == company))) ∧
    (∀ (u : Nat) (j : Journal), cashJournalFilter company (some u) j =
        (j.type == "cash" && (some j.company_id == company) &&
          (j.operating_unit_id == some u))) ∧
    (∀ j, _find_cash_journal_by_ou env company ou = some j →
        j ∈ env.journals ∧ cashJournalFilter company ou j = true ∧
          ∀ j' ∈ env.journals, cashJournalFilter company ou j' = true →
            j.id ≤ j'.id) ∧
    (_find_cash_journal_by_ou env company ou = none ↔
        ∀ j ∈ env.journals, cashJournalFilter company ou j = false) := by
  refine ⟨fun j => by simp [cashJournalFilter], fun u j => by simp [cashJournalFilter], ?_, ?_⟩
  · intro j hj
    unfold _find_cash_journal_by_ou at hj
    rcases hfil : env.journals.filter (cashJournalFilter company ou) with _ | ⟨a, as⟩
    · rw [hfil] at hj; cases hj
    · rw [hfil] at hj
      have hj' : minByIdAux a as = j := by
        injection hj
      have hmem : j ∈ a :: as := by
        rcases minByIdAux_mem as a with h | h
        · rw [hj'] at h; rw [← h]; exact List.mem_cons_self _ _
        · rw [hj'] at h; exact List.mem_cons_of_mem _ h
      have hmemfil : j ∈ env.journals.filter (cashJournalFilter company ou) := by
        rw [hfil]; exact hmem
      obtain ⟨hmemj, hpj⟩ := List.mem_filter.mp hmemfil
      refine ⟨hmemj, hpj, ?_⟩
      intro j' hj'mem hpj'
      have hj'fil : j' ∈ a :: as := by
        rw [← hfil]; exact List.mem_filter.mpr ⟨hj'mem, hpj'⟩
      obtain ⟨h1, h2⟩ := minByIdAux_le as a
      rcases List.mem_cons.mp hj'fil with rfl | hj'as
      · rw [← hj']; exact h1
      · rw [← hj']; exact h2 j' hj'as
  · unfold _find_cash_journal_by_ou
    rcases hfil : env.journals.filter (cashJournalFilter company ou) with _ | ⟨a, as⟩
    · simp only [true_iff]
      intro j hjmem
      by_contra hpj
      have : j ∈ env.journals.filter (cashJournalFilter company ou) :=
        List.mem_filter.mpr ⟨hjmem, by revert hpj; cases cashJournalFilter company ou j <;> simp⟩
      rw [hfil] at this
      cases this
    · constructor
      · intro h; cases h
      · intro hall
        exfalso
        have : a ∈ env.journals.filter (cashJournalFilter company ou) := by
          rw [hfil]; exact List.mem_cons_self _ _
        obtain ⟨hmem, hp⟩ := List.mem_filter.mp this
        rw [hall a hmem] at hp
        cases hp

/-- Witness for C6 on the fixture environment: journal 1 is the
least-id cash journal of company 1 and the filter facts hold there. -/
theorem find_cash_journal_by_ou_spec_witness :
    wJ1 ∈ wEnv.journals ∧ cashJournalFilter (some 1) none wJ1 = true ∧
      ∀ j' ∈ wEnv.journals, cashJournalFilter (some 1) none j' = true →
        wJ1.id ≤ j'.id :=
  (find_cash_journal_by_ou_spec wEnv (some 1) none).2.2.1 wJ1 (by decide)

/-- C4: `_get_central_cash_journal` first uses the journal named by the
configuration parameter — but only when that journal exists, belongs to
the company and has type cash (the shape of `centralParamJournal` even
when the fallback would resolve differently, so the parameter wins);
otherwise it returns the fallback search result, whose journal, when
present, is a cash journal of the company tagged with an operating unit
of the company whose name contains "Central" case-insensitively or
whose code is exactly `CENTRAL`; it is absent when neither path
produces a journal. -/
theorem get_central_cash_journal_spec (env : Env) (company : Option Nat) :
    (∀ (cid : Int) (j : Journal),
        parseCentralId env.central_journal_param = .ok cid →
        centralParamJournal env company cid = some j →
        _get_central_cash_journal env company = .ok (some j) ∧
          j ∈ env.journals ∧ some j.company_id = company ∧ j.type = "cash" ∧
          (j.id : Int) = cid ∧ cid ≠ 0) ∧
    (∀ cid : Int,
        parseCentralId env.central_journal_param = .ok cid →
        centralParamJournal env company cid = none →
        _get_central_cash_journal env company = .ok (centralFallback env company)) ∧
    (∀ j, centralFallback env company = some j →
        j ∈ env.journals ∧ j.type = "cash" ∧ some j.company_id = company ∧
          ∃ ou ∈ env.ous, some ou.company_id = company ∧
            (nameIlikeCentral ou.name = true ∨ ou.code = "CENTRAL") ∧
            j.operating_unit_id = some ou.id) := by
  refine ⟨?_, ?_, ?_⟩
  · intro cid j hparse hpj
    have hres : _get_central_cash_journal env company = .ok (some j) := by
      unfold _get_central_cash_journal
      rw [hparse, exceptMap_ok, hpj, optOrElse_some]
    refine ⟨hres, ?_⟩
    unfold centralParamJournal at hpj
    split at hpj
    case isTrue hcid =>
      obtain ⟨j0, hfind, hinner⟩ := Option.bind_eq_some.mp hpj
      split at hinner
      case isTrue hguard =>
        have hj : j0 = j := by injection hinner
        subst hj
        have hpred := List.find?_some hfind
        have hmem := List.mem_of_find?_eq_some hfind
        unfold browseIdFilter at hpred
        simp only [beq_iff_eq] at hpred
        simp only [Bool.and_eq_true, beq_iff_eq] at hguard
        exact ⟨hmem, hguard.1, hguard.2, hpred, hcid⟩
      case isFalse => cases hinner
    case isFalse => cases hpj
  · intro cid hparse hpj
    unfold _get_central_cash_journal
    rw [hparse, exceptMap_ok, hpj, optOrElse_none]
  · intro j hj
    unfold centralFallback at hj
    obtain ⟨ou, hou, hjf⟩ := Option.bind_eq_some.mp hj
    have hmem := List.mem_of_find?_eq_some hjf
    have hpred := List.find?_some hjf
    unfold centralOuJournalFilter at hpred
    simp only [Bool.and_eq_true, beq_iff_eq] at hpred
    have houmem := List.mem_of_find?_eq_some hou
    have houp := List.find?_some hou
    unfold centralOuFilter at houp
    simp only [Bool.and_eq_true, Bool.or_eq_true, beq_iff_eq] at houp
    exact ⟨hmem, hpred.1.1, hpred.1.2, ou, houmem, houp.1, houp.2, hpred.2⟩

/-- Witness for C4 on the fixture with the parameter naming journal 3:
the parameter journal is chosen (the fallback would give journal 2). -/
theorem get_central_cash_journal_spec_witness :
    _get_central_cash_journal wEnvP3 (some 1) = .ok (some wJ3) ∧
      wJ3 ∈ wEnvP3.journals ∧ some wJ3.company_id = some 1 ∧
      wJ3.type = "cash" ∧ ((wJ3.id : Nat) : Int) = 3 ∧ (3 : Int) ≠ 0 :=
  (get_central_cash_journal_spec wEnvP3 (some 1)).1 3 wJ3 (by rfl) (by decide)

/-- C9: `_get_central_cash_journal` returns normally whenever the
configuration parameter is absent, empty, or a decimal integer string
(optionally signed), and the `int()` conversion error occurs exactly
for the remaining parameter values. -/
theorem get_central_cash_journal_total (env : Env) (company : Option Nat) :
    ((env.central_journal_param = none ∨ env.central_journal_param = some "" ∨
        (∃ s, env.central_journal_param = some s ∧ (pyIntParse? s).isSome)) →
      ∃ r, _get_central_cash_journal env company = .ok r) ∧
    (∀ s, env.central_journal_param = some s → s ≠ "" → pyIntParse? s = none →
      _get_central_cash_journal env company = .error ()) := by
  constructor
  · intro h
    have hparse : ∃ cid, parseCentralId env.central_journal_param = .ok cid := by
      rcases h with h | h | ⟨s, hs, hsome⟩
      · exact ⟨0, by rw [h]; rfl⟩
      · exact ⟨0, by rw [h]; rfl⟩
      · rcases hv : pyIntParse? s with _ | n
        · rw [hv] at hsome; cases hsome
        · refine ⟨n, ?_⟩
          have hne : ¬s = "" := by
            intro hemp
            rw [hemp, show pyIntParse? "" = none from rfl] at hv
            cases hv
          rw [hs]
          unfold parseCentralId
          simp only [Option.getD_some, if_neg hne, hv, optElim_some]
    obtain ⟨cid, hcid⟩ := hparse
    unfold _get_central_cash_journal
    rw [hcid, exceptMap_ok]
    exact ⟨_, rfl⟩
  · intro s hs hne hbad
    unfold _get_central_cash_journal parseCentralId
    rw [hs]
    simp only [Option.getD_some, if_neg hne, hbad]
    rfl

/-- Witness for C9: a numeric parameter resolves normally, a
non-numeric one hits the conversion error. -/
theorem get_central_cash_journal_total_witness :
    (∃ r, _get_central_cash_journal wEnvP3 (some 1) = .ok r) ∧
      _get_central_cash_journal wEnvBadParam (some 1) = .error () :=
  ⟨(get_central_cash_journal_total wEnvP3 (some 1)).1
      (Or.inr (Or.inr ⟨"3", rfl, by decide⟩)),
   (get_central_cash_journal_total wEnvBadParam (some 1)).2 "abc" rfl
      (by decide) (by rfl)⟩

lemma buildLines_eq_collapsed (env : Env) (rec : CashTransfer) (jf jt : Journal)
    (acc_from acc_to : Nat) :
    buildLines env rec jf jt acc_from acc_to =
      buildLinesCollapsed rec jf jt acc_from acc_to := by
  simp only [buildLines, buildLinesCollapsed]
  by_cases h : some rec.currency_id = rec.company_id.map env.companyCurrency
  · rw [if_neg fun hne => hne h, ← h]
  · rw [if_pos h]

lemma validatePost_ok (env : Env) (rec : CashTransfer) (jf jt : Journal)
    (acc_from acc_to : Nat)
    (hf : _main_account (some jf) = some acc_from)
    (ht : _main_account (some jt) = some acc_to) :
    validatePost env rec jf jt = .ok
      ({ date := rec.date, journal_id := jt.id,
         ref := "Transferencia de efectivo #" ++ toString rec.id,
         line_ids :=
           [{ name := "Entrada a " ++ jt.name, account_id := acc_to,
              debit := rec.amount, credit := 0,
              currency_id := some rec.currency_id, company_id := rec.company_id },
            { name := "Salida de " ++ jf.name, account_id := acc_from,
              debit := 0, credit := rec.amount,
              currency_id := some rec.currency_id, company_id := rec.company_id }],
         company_id := rec.company_id, posted := true },
       { rec with state := "validated" }) := by
  simp only [validatePost, hf, ht, buildLines_eq_collapsed, buildLinesCollapsed,
    action_post]

lemma validateOne_toPost (env : Env) (rec : CashTransfer) (jf jt : Journal)
    (co : Option Journal)
    (h1 : 0 < rec.amount) (h2 : rec.journal_id_from = some jf)
    (h3 : rec.journal_id_to = some jt) (h4 : jf.id ≠ jt.id)
    (h5 : _get_central_cash_journal env rec.company_id = .ok co)
    (h6 : ∀ c, co = some c → jt.id = c.id) :
    validateOne env rec = validatePost env rec jf jt := by
  rcases co with _ | c
  · simp only [validateOne, h2, h3, h5, if_neg (not_le.mpr h1), if_neg h4]
  · have hid : jt.id = c.id := h6 c rfl
    simp only [validateOne, h2, h3, h5, if_neg (not_le.mpr h1), if_neg h4,
      if_neg (not_not_intro hid)]

/-- C5: the currency branching in the line construction is dead — for
every input, the branch on "transfer currency differs from company
currency" and the collapsed construction that always tags both lines
with the transfer's own currency produce identical line contents. -/
theorem buildLines_branch_dead (env : Env) (rec : CashTransfer) (jf jt : Journal)
    (acc_from acc_to : Nat) :
    buildLines env rec jf jt acc_from acc_to =
      buildLinesCollapsed rec jf jt acc_from acc_to :=
  buildLines_eq_collapsed env rec jf jt acc_from acc_to

/-- C1: when the five preconditions hold (positive amount, both journals
set and distinct, destination equal to the central journal when one
resolves, both main accounts resolvable), `action_validate` on the
record creates exactly one move, dated `rec.date`, journaled under the
destination journal, referencing the transfer id, with exactly the
debit line on the destination's main account and the credit line on the
source's main account, posts it, balances to zero, and sets the record
state to `validated`. -/
theorem action_validate_success (env : Env) (rec : CashTransfer) (jf jt : Journal)
    (acc_from acc_to : Nat) (co : Option Journal)
    (h1 : 0 < rec.amount)
    (h2 : rec.journal_id_from = some jf)
    (h3 : rec.journal_id_to = some jt)
    (h4 : jf.id ≠ jt.id)
    (h5 : _get_central_cash_journal env rec.company_id = .ok co)
    (h6 : ∀ c, co = some c → jt.id = c.id)
    (h7 : _main_account (some jf) = some acc_from)
    (h8 : _main_account (some jt) = some acc_to) :
    ∃ mv rec',
      validateOne env rec = .ok (mv, rec') ∧
      action_validate env [rec] = ([mv], [rec'], none) ∧
      mv.date = rec.date ∧ mv.journal_id = jt.id ∧
      mv.ref = "Transferencia de efectivo #" ++ toString rec.id ∧
      mv.company_id = rec.company_id ∧ mv.posted = true ∧
      mv.line_ids =
        [{ name := "Entrada a " ++ jt.name, account_id := acc_to,
           debit := rec.amount, credit := 0,
           currency_id := some rec.currency_id, company_id := rec.company_id },
         { name := "Salida de " ++ jf.name, account_id := acc_from,
           debit := 0, credit := rec.amount,
           currency_id := some rec.currency_id, company_id := rec.company_id }] ∧
      (mv.line_ids.map MoveLine.debit).sum -
        (mv.line_ids.map MoveLine.credit).sum = 0 ∧
      rec' = { rec with state := "validated" } := by
  have hone : validateOne env rec = .ok
      ({ date := rec.date, journal_id := jt.id,
         ref := "Transferencia de efectivo #" ++ toString rec.id,
         line_ids :=
           [{ name := "Entrada a " ++ jt.name, account_id := acc_to,
              debit := rec.amount, credit := 0,
              currency_id := some rec.currency_id, company_id := rec.company_id },
            { name := "Salida de " ++ jf.name, account_id := acc_from,
              debit := 0, credit := rec.amount,
              currency_id := some rec.currency_id, company_id := rec.company_id }],
         company_id := rec.company_id, posted := true },
       { rec with state := "validated" }) :=
    (validateOne_toPost env rec jf jt co h1 h2 h3 h4 h5 h6).trans
      (validatePost_ok env rec jf jt acc_from acc_to h7 h8)
  refine ⟨_, _, hone, ?_, rfl, rfl, rfl, rfl, rfl, rfl, ?_, rfl⟩
  · simp only [action_validate, validateLoop, hone, List.nil_append]
  · simp only [List.map_cons, List.map_nil, List.sum_cons, List.sum_nil]
    omega

/-- Witness for C1 on the fixture: validating `wRec` produces the posted
balanced move `wMove` and the validated record. -/
theorem action_validate_success_witness :
    ∃ mv rec',
      validateOne wEnv wRec = .ok (mv, rec') ∧
      action_validate wEnv [wRec] = ([mv], [rec'], none) ∧
      mv.date = wRec.date ∧ mv.journal_id = wJ2.id ∧
      mv.ref = "Transferencia de efectivo #" ++ toString wRec.id ∧
      mv.company_id = wRec.company_id ∧ mv.posted = true ∧
      mv.line_ids =
        [{ name := "Entrada a " ++ wJ2.name, account_id := 102,
           debit := wRec.amount, credit := 0,
           currency_id := some wRec.currency_id, company_id := wRec.company_id },
         { name := "Salida de " ++ wJ1.name, account_id := 101,
           debit := 0, credit := wRec.amount,
           currency_id := some wRec.currency_id, company_id := wRec.company_id }] ∧
      (mv.line_ids.map MoveLine.debit).sum -
        (mv.line_ids.map MoveLine.credit).sum = 0 ∧
      rec' = { wRec with state := "validated" } :=
  action_validate_success wEnv wRec wJ1 wJ2 101 102 (some wJ2)
    (by decide) rfl rfl (by decide) (by rfl)
    (fun c hc => by injection hc with h; rw [← h]) rfl rfl

/-- C2: the five precondition checks of `action_validate` run in source
order with the first violated check deciding the error: (1) non-positive
amount, (2) a journal unset, (3) identical journals, (4) destination
different from a resolved central journal, (5) unresolvable main
account on either journal.  An error result carries no move and leaves
the record unchanged by construction of the `Except` encoding. -/
theorem validate_check_order (env : Env) (rec : CashTransfer) :
    (rec.amount ≤ 0 → validateOne env rec = .error .invalidAmount) ∧
    (0 < rec.amount →
      (rec.journal_id_from = none ∨ rec.journal_id_to = none) →
      validateOne env rec = .error .missingJournal) ∧
    (∀ jf jt, 0 < rec.amount → rec.journal_id_from = some jf →
      rec.journal_id_to = some jt → jf.id = jt.id →
      validateOne env rec = .error .sameJournal) ∧
    (∀ jf jt c, 0 < rec.amount → rec.journal_id_from = some jf →
      rec.journal_id_to = some jt → jf.id ≠ jt.id →
      _get_central_cash_journal env rec.company_id = .ok (some c) →
      jt.id ≠ c.id →
      validateOne env rec = .error .destinationMustBeCentral) ∧
    (∀ jf jt co, 0 < rec.amount → rec.journal_id_from = some jf →
      rec.journal_id_to = some jt → jf.id ≠ jt.id →
      _get_central_cash_journal env rec.company_id = .ok co →
      (∀ c, co = some c → jt.id = c.id) →
      (_main_account (some jf) = none ∨ _main_account (some jt) = none) →
      validateOne env rec = .error .missingJournalAccount) := by
  refine ⟨?_, ?_, ?_, ?_, ?_⟩
  · intro h
    simp only [validateOne, if_pos h]
  · intro h hnone
    rcases hnone with hf | ht
    · rcases hto : rec.journal_id_to with _ | jt
      · simp only [validateOne, if_neg (not_le.mpr h), hf, hto]
      · simp only [validateOne, if_neg (not_le.mpr h), hf, hto]
    · rcases hfr : rec.journal_id_from with _ | jf
      · simp only [validateOne, if_neg (not_le.mpr h), hfr, ht]
      · simp only [validateOne, if_neg (not_le.mpr h), hfr, ht]
  · intro jf jt h hf ht heq
    simp only [validateOne, if_neg (not_le.mpr h), hf, ht, if_pos heq]
  · intro jf jt c h hf ht hne hc hdiff
    simp only [validateOne, if_neg (not_le.mpr h), hf, ht, if_neg hne, hc,
      if_pos hdiff]
  · intro jf jt co h hf ht hne hc hctr hacc
    rw [validateOne_toPost env rec jf jt co h hf ht hne hc hctr]
    rcases hacc with ha | ha
    · simp only [validatePost, ha]
    · rcases hb : _main_account (some jf) with _ | a
      · simp only [validatePost, hb]
      · simp only [validatePost, hb, ha]

/-- Witness for C2: one fixture record per violated check, each hitting
its own error. -/
theorem validate_check_order_witness :
    validateOne wEnv { wRec with amount := 0 } = .error .invalidAmount ∧
    validateOne wEnv { wRec with journal_id_from := none } =
      .error .missingJournal ∧
    validateOne wEnv { wRec with journal_id_from := some wJ2 } =
      .error .sameJournal ∧
    validateOne wEnv { wRec with journal_id_to := some wJ3 } =
      .error .destinationMustBeCentral ∧
    validateOne wEnv { wRec with journal_id_from := some wJ4 } =
      .error .missingJournalAccount :=
  ⟨(validate_check_order wEnv _).1 (by decide),
   (validate_check_order wEnv _).2.1 (by decide) (Or.inl rfl),
   (validate_check_order wEnv _).2.2.1 wJ2 wJ2 (by decide) rfl rfl rfl,
   (validate_check_order wEnv _).2.2.2.1 wJ1 wJ3 wJ2 (by decide) rfl rfl
     (by decide) (by rfl) (by decide),
   (validate_check_order wEnv _).2.2.2.2 wJ4 wJ2 (some wJ2) (by decide) rfl rfl
     (by decide) (by rfl) (fun c hc => by injection hc with h; rw [← h])
     (Or.inl rfl)⟩

/-- C3: when a central journal resolves for the record's company and the
destination journal differs from it (amount positive, journals set and
distinct), validation fails with the destination-must-be-central error
and creates no move. -/
theorem validate_dest_not_central (env : Env) (rec : CashTransfer)
    (jf jt c : Journal)
    (h1 : 0 < rec.amount) (h2 : rec.journal_id_from = some jf)
    (h3 : rec.journal_id_to = some jt) (h4 : jf.id ≠ jt.id)
    (h5 : _get_central_cash_journal env rec.company_id = .ok (some c))
    (h6 : jt.id ≠ c.id) :
    validateOne env rec = .error .destinationMustBeCentral ∧
    action_validate env [rec] = ([], [rec], some .destinationMustBeCentral) := by
  have h : validateOne env rec = .error .destinationMustBeCentral := by
    simp only [validateOne, h2, h3, h5, if_neg (not_le.mpr h1), if_neg h4,
      if_pos h6]
  refine ⟨h, ?_⟩
  simp only [action_validate, validateLoop, h, List.nil_append]

/-- Witness for C3: destination journal 3 while the fallback central is
journal 2. -/
theorem validate_dest_not_central_witness :
    validateOne wEnv { wRec with journal_id_to := some wJ3 } =
      .error .destinationMustBeCentral ∧
    action_validate wEnv [{ wRec with journal_id_to := some wJ3 }] =
      ([], [{ wRec with journal_id_to := some wJ3 }],
        some .destinationMustBeCentral) :=
  validate_dest_not_central wEnv _ wJ1 wJ3 wJ2 (by decide) rfl rfl (by decide)
    (by rfl) (by decide)

/-- C7: on a source-journal change, when the record has a company, the
acting user has an operating unit, and the selected source journal's
unit differs from the user's, the handler replaces the selection with
the cash journal of the user's unit when one exists and leaves the
selection unchanged when none exists. -/
theorem onchange_from_enforce_ou_spec (env : Env) (rec : CashTransfer)
    (uou : Nat) (jf : Journal)
    (hou : _get_user_default_ou env = some uou)
    (hcomp : rec.company_id.isSome = true)
    (hfrom : rec.journal_id_from = some jf)
    (hdiff : jf.operating_unit_id ≠ some uou) :
    (∀ j, _find_cash_journal_by_ou env rec.company_id (some uou) = some j →
        _onchange_from_enforce_ou env rec =
          { rec with journal_id_from := some j }) ∧
    (_find_cash_journal_by_ou env rec.company_id (some uou) = none →
        _onchange_from_enforce_ou env rec = rec) := by
  constructor
  · intro j hj
    simp only [_onchange_from_enforce_ou, hou, hcomp, if_true, hfrom,
      if_pos hdiff, hj]
  · intro hj
    simp only [_onchange_from_enforce_ou, hou, hcomp, if_true, hfrom,
      if_pos hdiff, hj]

/-- Witness for C7: journal 3 has no unit, the user's unit is 10, and
journal 1 is the unit-10 cash journal, so the selection snaps to it. -/
theorem onchange_from_enforce_ou_spec_witness :
    _onchange_from_enforce_ou wEnv { wRec with journal_id_from := some wJ3 } =
      { { wRec with journal_id_from := some wJ3 } with
          journal_id_from := some wJ1 } :=
  (onchange_from_enforce_ou_spec wEnv { wRec with journal_id_from := some wJ3 }
    10 wJ3 rfl (by decide) rfl (by decide)).1 wJ1 (by decide)

lemma validateOne_state_irrel (env : Env) (i d : Nat) (c : Option Nat)
    (f t : Option Journal) (a : Int) (cu : Nat) (s s' : String) :
    validateOne env ⟨i, d, c, f, t, a, cu, s⟩ =
      validateOne env ⟨i, d, c, f, t, a, cu, s'⟩ := rfl

lemma validatePost_ok_shape (env : Env) (rec : CashTransfer) (jf jt : Journal)
    (m : Move) (r' : CashTransfer)
    (h : validatePost env rec jf jt = .ok (m, r')) :
    r' = { rec with state := "validated" } ∧ m.posted = true := by
  unfold validatePost at h
  split at h
  · injection h with h1
    rw [Prod.mk.injEq] at h1
    exact ⟨h1.2.symm, by rw [← h1.1]; rfl⟩
  · cases h

lemma validateOne_ok_shape (env : Env) (rec : CashTransfer) (m : Move)
    (r' : CashTransfer) (h : validateOne env rec = .ok (m, r')) :
    r' = { rec with state := "validated" } ∧ m.posted = true := by
  unfold validateOne at h
  split at h
  · cases h
  · split at h
    · cases h
    · cases h
    · split at h
      · cases h
      · split at h
        · cases h
        · split at h
          · cases h
          · exact validatePost_ok_shape env rec _ _ m r' h
        · exact validatePost_ok_shape env rec _ _ m r' h

/-- C8: `action_validate` never reads `state` — validation of a record
with any state (including `validated`) behaves as for the draft record,
and re-validating the output record succeeds again with the same move,
so each invocation posts one more move. -/
theorem validate_ignores_state (env : Env) (rec : CashTransfer) (s : String) :
    validateOne env { rec with state := s } = validateOne env rec ∧
    (∀ m r', validateOne env rec = .ok (m, r') →
      validateOne env r' = .ok (m, r')) := by
  obtain ⟨i, d, c, f, t, a, cu, st⟩ := rec
  refine ⟨validateOne_state_irrel env i d c f t a cu s st, ?_⟩
  intro m r' h
  obtain ⟨hr, _⟩ := validateOne_ok_shape env _ m r' h
  subst hr
  exact (validateOne_state_irrel env i d c f t a cu "validated" st).trans h

/-- Witness for C8: validating the already-validated fixture record
posts the same move again. -/
theorem validate_ignores_state_witness :
    validateOne wEnv { wRec with state := "validated" } =
      validateOne wEnv wRec ∧
    validateOne wEnv wRecValidated = .ok (wMove, wRecValidated) :=
  ⟨(validate_ignores_state wEnv wRec "validated").1,
   (validate_ignores_state wEnv wRec "validated").2 wMove wRecValidated (by rfl)⟩

lemma validateLoop_okRun (env : Env) (r : CashTransfer) (e : VError)
    (rest : List CashTransfer) (hr : validateOne env r = .error e) :
    ∀ (pre : List CashTransfer),
      (∀ q ∈ pre, ∃ p, validateOne env q = .ok p) →
      ∀ (accM : List Move) (accD : List CashTransfer),
      ∃ moves done,
        validateLoop env (pre ++ r :: rest) accM accD =
          (accM ++ moves, (accD ++ done) ++ r :: rest, some e) ∧
        moves.length = pre.length ∧ done.length = pre.length ∧
        (∀ m ∈ moves, m.posted = true) ∧
        (∀ q ∈ done, q.state = "validated") ∧
        List.Forall₂ (fun q p => validateOne env q = .ok p) pre
          (moves.zip done) := by
  intro pre
  induction pre with
  | nil =>
      intro _ accM accD
      refine ⟨[], [], ?_, rfl, rfl, by simp, by simp, List.Forall₂.nil⟩
      simp only [List.nil_append, validateLoop, hr, List.append_nil]
  | cons q pre' ih =>
      intro hok accM accD
      obtain ⟨⟨m, q'⟩, hq⟩ := hok q (List.mem_cons_self _ _)
      obtain ⟨hshape, hposted⟩ := validateOne_ok_shape env q m q' hq
      obtain ⟨moves', done', hloop, hlm, hld, hpost', hstate', hfa⟩ :=
        ih (fun x hx => hok x (List.mem_cons_of_mem _ hx)) (accM ++ [m])
          (accD ++ [q'])
      refine ⟨m :: moves', q' :: done', ?_, by simp [hlm], by simp [hld],
        ?_, ?_, ?_⟩
      · have hstep : validateLoop env ((q :: pre') ++ r :: rest) accM accD =
            validateLoop env (pre' ++ r :: rest) (accM ++ [m]) (accD ++ [q']) := by
          simp only [List.cons_append, validateLoop, hq]
          rfl
        rw [hstep, hloop]
        simp [List.append_assoc]
      · intro x hx
        rcases List.mem_cons.mp hx with rfl | hx'
        · exact hposted
        · exact hpost' x hx'
      · intro x hx
        rcases List.mem_cons.mp hx with rfl | hx'
        · rw [hshape]
        · exact hstate' x hx'
      · rw [List.zip_cons_cons]
        exact List.Forall₂.cons hq hfa

/-- C10: when `action_validate` runs over several records and one fails
a check, every record before it keeps its already-created posted move
and its `validated` state — the loop performs no compensation; the
failing record and the rest are untouched. -/
theorem action_validate_batch_no_rollback (env : Env)
    (pre rest : List CashTransfer) (r : CashTransfer) (e : VError)
    (hok : ∀ q ∈ pre, ∃ p, validateOne env q = .ok p)
    (hr : validateOne env r = .error e) :
    ∃ moves done,
      action_validate env (pre ++ r :: rest) =
        (moves, done ++ r :: rest, some e) ∧
      moves.length = pre.length ∧ done.length = pre.length ∧
      (∀ m ∈ moves, m.posted = true) ∧
      (∀ q ∈ done, q.state = "validated") ∧
      List.Forall₂ (fun q p => validateOne env q = .ok p) pre
        (moves.zip done) := by
  obtain ⟨moves, done, hloop, hlm, hld, hpost, hstate, hfa⟩ :=
    validateLoop_okRun env r e rest hr pre hok [] []
  refine ⟨moves, done, ?_, hlm, hld, hpost, hstate, hfa⟩
  simpa [action_validate] using hloop

/-- Witness for C10: a good record followed by a zero-amount record —
the first record's move stays posted and validated while the batch
reports the error. -/
theorem action_validate_batch_no_rollback_witness :
    ∃ moves done,
      action_validate wEnv ([wRec] ++ { wRec with amount := 0 } :: []) =
        (moves, done ++ { wRec with amount := 0 } :: [],
          some .invalidAmount) ∧
      moves.length = [wRec].length ∧ done.length = [wRec].length ∧
      (∀ m ∈ moves, m.posted = true) ∧
      (∀ q ∈ done, q.state = "validated") ∧
      List.Forall₂ (fun q p => validateOne wEnv q = .ok p) [wRec]
        (moves.zip done) :=
  action_validate_batch_no_rollback wEnv [wRec] []
    { wRec with amount := 0 } .invalidAmount
    (fun q hq => by
      rw [List.mem_singleton] at hq
      subst hq
      exact ⟨(wMove, wRecValidated), by rfl⟩)
    (by rfl)

end CashTransferSpec
